import Mathlib

/-!
Verification of the client-side layout & pairing engine of the photocopy
wizard. All definitions are shallow embeddings of the TypeScript source:
`documentService.ts`, `Step3Pairing.tsx`, `Step4Review.tsx`,
`Step5PrintSetup.tsx`, `Step1Upload.tsx`, `fileValidation.ts`,
`Step2Crop.tsx` and `CropTool.tsx`. JS numbers that only ever hold
integers are embedded as `Nat`; fractional coordinate arithmetic is
embedded over `ℚ`.
-/

set_option autoImplicit false
set_option maxRecDepth 8192

namespace Photocopy

/-! ### Data model (`src/types/index.ts`) -/

/-- The closed union `DocumentType = IDCardType | SingleDocumentType`. -/
inductive DocumentType
  | aadhaar_front
  | aadhaar_back
  | driving_license_front
  | driving_license_back
  | voter_id_front
  | voter_id_back
  | pan_card
  | passport
  | bank_statement
  | certificate
  | generic
deriving DecidableEq, Repr, Fintype

/-- The string tag carried by each `DocumentType` member. -/
def DocumentType.tag : DocumentType → String
  | .aadhaar_front => "aadhaar_front"
  | .aadhaar_back => "aadhaar_back"
  | .driving_license_front => "driving_license_front"
  | .driving_license_back => "driving_license_back"
  | .voter_id_front => "voter_id_front"
  | .voter_id_back => "voter_id_back"
  | .pan_card => "pan_card"
  | .passport => "passport"
  | .bank_statement => "bank_statement"
  | .certificate => "certificate"
  | .generic => "generic"

/-- `DocumentCategory = 'id_card' | 'single_document'`. -/
inductive DocumentCategory
  | id_card
  | single_document
deriving DecidableEq, Repr, Fintype

/-- The derived side of a document: `'front' | 'back'` (or `null`). -/
inductive Side
  | front
  | back
deriving DecidableEq, Repr, Fintype

/-- JS `String.prototype.includes(pat)` on character lists. -/
def strIncludes (pat : List Char) : List Char → Bool
  | [] => pat.isEmpty
  | c :: rest => pat.isPrefixOf (c :: rest) || strIncludes pat rest

/-- JS `String.prototype.replace(pat, '')` with a string pattern: removes
the first occurrence of `pat`, or returns the string unchanged when `pat`
does not occur. -/
def replaceFirst (pat : List Char) : List Char → List Char
  | [] => []
  | c :: rest =>
    if pat.isPrefixOf (c :: rest) then (c :: rest).drop pat.length
    else c :: replaceFirst pat rest

/-- Embeds `DocumentService.getDocumentSide`: substring matching on the
type tag (`detectedType.includes('_front')` / `includes('_back')`). -/
def getDocumentSide (detectedType : DocumentType) : Option Side :=
  if strIncludes "_front".toList detectedType.tag.toList then some .front
  else if strIncludes "_back".toList detectedType.tag.toList then some .back
  else none

/-- Embeds `DocumentService.categorizeDocument`. -/
def categorizeDocument (detectedType : DocumentType) : DocumentCategory :=
  let idCardTypes : List DocumentType :=
    [.aadhaar_front, .aadhaar_back, .driving_license_front,
     .driving_license_back, .voter_id_front, .voter_id_back]
  if idCardTypes.contains detectedType then .id_card else .single_document

/-- The fields of `CleanedDocument` that the engine reads or writes.
Image payloads and AI metadata are opaque strings / numbers to the
algorithms verified here. -/
structure CleanedDocument where
  id : String
  detectedType : DocumentType
  detectedCategory : DocumentCategory
  qualityScore : Nat
  rotation : Nat
  cleanedImage : String
deriving DecidableEq, Repr

/-- Embeds `DocumentService.canPair` (documentService.ts, lines 100-122):
both categories must be `'id_card'`, the first argument's side must be
`'front'` and the second's `'back'`, and the base types — obtained with
`detectedType.replace('_front', '')` resp. `replace('_back', '')` — must
coincide. -/
def canPair (frontDoc backDoc : CleanedDocument) : Bool :=
  if frontDoc.detectedCategory ≠ DocumentCategory.id_card ∨
      backDoc.detectedCategory ≠ DocumentCategory.id_card then
    false
  else if getDocumentSide frontDoc.detectedType ≠ some Side.front ∨
      getDocumentSide backDoc.detectedType ≠ some Side.back then
    false
  else
    decide (replaceFirst "_front".toList frontDoc.detectedType.tag.toList =
      replaceFirst "_back".toList backDoc.detectedType.tag.toList)

/-- The claim's reading of "base type": the type string with a *trailing*
`_front` (resp. `_back`) suffix removed. -/
def baseTypeStrippingSuffix (pat : List Char) (s : List Char) : List Char :=
  if pat.isSuffixOf s then s.take (s.length - pat.length) else s

/-! ### Pairing state machine (`Step3Pairing.tsx`) -/

/-- `pairingMethod: 'auto' | 'manual'`. -/
inductive PairingMethod
  | auto
  | manual
deriving DecidableEq, Repr

/-- `status: 'paired'` (a literal type in the source). -/
inductive PairStatus
  | paired
deriving DecidableEq, Repr

/-- `status: 'unpaired'` (a literal type in the source). -/
inductive UnpairStatus
  | unpaired
deriving DecidableEq, Repr

/-- `reason: 'no_match' | 'low_confidence' | 'multiple_candidates'`. -/
inductive UnpairReason
  | no_match
  | low_confidence
  | multiple_candidates
deriving DecidableEq, Repr

/-- `PairedIDCard` from `src/types/index.ts`. -/
structure PairedIDCard where
  id : String
  frontDoc : CleanedDocument
  backDoc : CleanedDocument
  confidence : Nat
  pairingMethod : PairingMethod
  status : PairStatus
deriving DecidableEq, Repr

/-- `UnpairedIDCard` from `src/types/index.ts`. -/
structure UnpairedIDCard where
  id : String
  document : CleanedDocument
  side : Side
  status : UnpairStatus
  reason : UnpairReason
deriving DecidableEq, Repr

namespace Step3Pairing

/-- The component state of `Step3Pairing`: the three `useState` lists. -/
structure PairingState where
  pairedIDs : List PairedIDCard
  unpairedIDs : List UnpairedIDCard
  singleDocs : List CleanedDocument
deriving DecidableEq, Repr

/-- Embeds `handleManualPair` (Step3Pairing.tsx, lines 103-145). `now`
stands for the `Date.now()` timestamp used to mint the new pair id.
Returns the updated state together with the created pair (`none` when the
operation failed and the state is unchanged). -/
def handleManualPair (frontId backId : String) (now : Nat)
    (st : PairingState) : PairingState × Option PairedIDCard :=
  match st.unpairedIDs.find? (fun u => u.document.id == frontId),
        st.unpairedIDs.find? (fun u => u.document.id == backId) with
  | some frontCard, some backCard =>
    if canPair frontCard.document backCard.document then
      let newPair : PairedIDCard :=
        { id := "pair_" ++ toString now,
          frontDoc := frontCard.document,
          backDoc := backCard.document,
          confidence := 100,
          pairingMethod := .manual,
          status := .paired }
      ({ st with
          pairedIDs := st.pairedIDs ++ [newPair],
          unpairedIDs := st.unpairedIDs.filter
            (fun u => u.document.id != frontId && u.document.id != backId) },
        some newPair)
    else (st, none)
  | _, _ => (st, none)

/-- Embeds `handleUnpair` (Step3Pairing.tsx, lines 147-176). `now` stands
for the `Date.now()` timestamp used to mint the candidate ids. When the
pair id is not found the state is returned unchanged. -/
def handleUnpair (pairId : String) (now : Nat) (st : PairingState) :
    PairingState :=
  match st.pairedIDs.find? (fun p => p.id == pairId) with
  | none => st
  | some pair =>
    { st with
        unpairedIDs := st.unpairedIDs ++
          [{ id := "unpaired_front_" ++ toString now,
             document := pair.frontDoc,
             side := .front,
             status := .unpaired,
             reason := .no_match },
           { id := "unpaired_back_" ++ toString now,
             document := pair.backDoc,
             side := .back,
             status := .unpaired,
             reason := .no_match }],
        pairedIDs := st.pairedIDs.filter (fun p => p.id != pairId) }

/-- Outcome of the Continue button handler: either blocked with the count
of remaining unpaired cards, or progression with the data handed to
`onPairingComplete`. -/
inductive ContinueResult
  | blocked (remaining : Nat)
  | proceed (pairedIDs : List PairedIDCard) (singleDocs : List CleanedDocument)
deriving DecidableEq, Repr

/-- Embeds `handleContinue` (Step3Pairing.tsx, lines 178-189): when
`unpairedIDs.length > 0` the handler reports the count and returns
without calling `onPairingComplete` (no state is modified); otherwise it
hands `(pairedIDs, singleDocs)` forward. -/
def handleContinue (st : PairingState) : ContinueResult :=
  if st.unpairedIDs.length > 0 then .blocked st.unpairedIDs.length
  else .proceed st.pairedIDs st.singleDocs

/-- The claim C9's conserved quantity: every pair holds two documents and
every unpaired candidate one. -/
def docCount (st : PairingState) : Nat :=
  2 * st.pairedIDs.length + st.unpairedIDs.length

end Step3Pairing

namespace Step4Review

/-- The component state of `Step4Review`: the two `useState` lists. -/
structure ReviewState where
  localPairedIDs : List PairedIDCard
  localSingleDocs : List CleanedDocument
deriving DecidableEq, Repr

/-- The arrow function mapped over `localPairedIDs` by `rotateDocument`
(named here so it can be reasoned about): bump the rotation of the
matching front (resp. back) document by 90 degrees modulo 360, keeping
every other field and every non-matching pair unchanged. -/
def rotatePairEntry (docId : String) (isFront : Option Bool)
    (pair : PairedIDCard) : PairedIDCard :=
  if isFront = some true ∧ pair.frontDoc.id = docId then
    { pair with frontDoc := { pair.frontDoc with
        rotation := (pair.frontDoc.rotation + 90) % 360 } }
  else if isFront = some false ∧ pair.backDoc.id = docId then
    { pair with backDoc := { pair.backDoc with
        rotation := (pair.backDoc.rotation + 90) % 360 } }
  else pair

/-- The arrow function mapped over `localSingleDocs` by `rotateDocument`. -/
def rotateSingleEntry (docId : String) (doc : CleanedDocument) :
    CleanedDocument :=
  if doc.id = docId then { doc with rotation := (doc.rotation + 90) % 360 }
  else doc

/-- Embeds `rotateDocument` (Step4Review.tsx, lines 27-62). `isFront` is
`undefined` (`none`) when the call targets a single document. When
`isPaired && isFront !== undefined`, the paired list is mapped with
`rotatePairEntry`; otherwise the singles list is mapped with
`rotateSingleEntry`. -/
def rotateDocument (docId : String) (isPaired : Bool) (isFront : Option Bool)
    (st : ReviewState) : ReviewState :=
  if isPaired ∧ isFront ≠ none then
    { st with localPairedIDs :=
        st.localPairedIDs.map (rotatePairEntry docId isFront) }
  else
    { st with localSingleDocs :=
        st.localSingleDocs.map (rotateSingleEntry docId) }

end Step4Review

/-! ### Concrete documents used by the evaluation witnesses -/

/-- A concrete Aadhaar front document. -/
def dAadhaarFront : CleanedDocument :=
  { id := "d1", detectedType := .aadhaar_front, detectedCategory := .id_card,
    qualityScore := 90, rotation := 0, cleanedImage := "img1" }

/-- A concrete Aadhaar back document. -/
def dAadhaarBack : CleanedDocument :=
  { id := "d2", detectedType := .aadhaar_back, detectedCategory := .id_card,
    qualityScore := 85, rotation := 0, cleanedImage := "img2" }

/-- A concrete auto-created pair of the two Aadhaar documents. -/
def pair0 : PairedIDCard :=
  { id := "pair_0", frontDoc := dAadhaarFront, backDoc := dAadhaarBack,
    confidence := 95, pairingMethod := .auto, status := .paired }

/-- A concrete pairing state holding exactly `pair0`. -/
def st0 : Step3Pairing.PairingState :=
  { pairedIDs := [pair0], unpairedIDs := [], singleDocs := [] }

/-- A concrete PAN card document, rotated 90 degrees. -/
def dPanCard : CleanedDocument :=
  { id := "d3", detectedType := .pan_card,
    detectedCategory := .single_document, qualityScore := 70,
    rotation := 90, cleanedImage := "img3" }

/-- A concrete review state holding exactly `pair0` and one single
document. -/
def rv0 : Step4Review.ReviewState :=
  { localPairedIDs := [pair0], localSingleDocs := [dPanCard] }

/-! ### Layout planner (`Step5PrintSetup.tsx`) -/

/-- `LayoutType = 'id_layout' | 'document_layout'`. -/
inductive LayoutType
  | id_layout
  | document_layout
deriving DecidableEq, Repr

namespace Step5PrintSetup

/-- Embeds `calculateTotalPages` (Step5PrintSetup.tsx, lines 48-67): for
`'id_layout'` the page count is `Math.ceil(totalIDs / 2)` — on naturals
`(totalIDs + 1) / 2` — where `totalIDs = pairedIDs.length +
singleDocuments.length`; for `'document_layout'` it is one page per
document. -/
def calculateTotalPages (pairedIDsLength singleDocumentsLength : Nat)
    (layoutType : LayoutType) : Nat :=
  match layoutType with
  | .id_layout => (pairedIDsLength + singleDocumentsLength + 1) / 2
  | .document_layout => pairedIDsLength + singleDocumentsLength

end Step5PrintSetup

/-! ### Admission guard (`fileValidation.ts` and `Step1Upload.tsx`) -/

namespace FileValidation

/-- The type/size fields of a candidate `File`. -/
structure FileDesc where
  name : String
  type : String
  size : Nat
deriving DecidableEq, Repr

/-- `MAX_FILE_SIZE = 50 * 1024 * 1024`. -/
def MAX_FILE_SIZE : Nat := 50 * 1024 * 1024

/-- `MAX_BATCH_SIZE = 200`. -/
def MAX_BATCH_SIZE : Nat := 200

/-- `ALLOWED_IMAGE_TYPES`. -/
def ALLOWED_IMAGE_TYPES : List String := ["image/jpeg", "image/jpg", "image/png"]

/-- `ALLOWED_PDF_TYPE`. -/
def ALLOWED_PDF_TYPE : String := "application/pdf"

/-- Embeds `validateFile` (fileValidation.ts): type must be among the
allowed image types or the PDF type, and size must not exceed
`MAX_FILE_SIZE`. The human-readable error string of the source's
`{valid, error}` record is irrelevant to admission and is dropped. -/
def validateFile (file : FileDesc) : Bool :=
  if ¬ (ALLOWED_IMAGE_TYPES ++ [ALLOWED_PDF_TYPE]).contains file.type then
    false
  else if file.size > MAX_FILE_SIZE then
    false
  else
    true

/-- Embeds `validateBatch` (fileValidation.ts, lines 28-42): computes
`totalSize = currentQueueSize + files.length` and rejects when it exceeds
`MAX_BATCH_SIZE`. -/
def validateBatch (files : List FileDesc) (currentQueueSize : Nat) : Bool :=
  if currentQueueSize + files.length > MAX_BATCH_SIZE then false else true

/-- Embeds `validateFiles` (fileValidation.ts): keeps the files passing
`validateFile`, dropping invalid ones individually. -/
def validateFiles (files : List FileDesc) : List FileDesc :=
  files.filter validateFile

end FileValidation

namespace Step1Upload

open FileValidation

/-- Embeds `handleFileSelect` (Step1Upload.tsx, lines 22-60), reduced to
its effect on the upload queue: an empty selection is ignored; then
`validateBatch` is applied to the *raw* incoming list against the current
queue length (rejecting the whole selection on failure); only afterwards
is the selection filtered through `validateFiles`, and the surviving
files are appended to the queue (none to append is a no-op). -/
def handleFileSelect (files : List FileDesc) (uploadQueue : List FileDesc) :
    List FileDesc :=
  if files.length = 0 then uploadQueue
  else if validateBatch files uploadQueue.length then
    if (validateFiles files).length = 0 then uploadQueue
    else uploadQueue ++ validateFiles files
  else uploadQueue

/-- Modelled from the claim's words, for comparison with
`handleFileSelect`: the incoming files are first filtered item-by-item
through the type and size predicates, and only then is the remaining
valid subset checked against the batch limit. -/
def handleFileSelectClaimOrder (files : List FileDesc)
    (uploadQueue : List FileDesc) : List FileDesc :=
  if files.length = 0 then uploadQueue
  else if validateBatch (validateFiles files) uploadQueue.length then
    if (validateFiles files).length = 0 then uploadQueue
    else uploadQueue ++ validateFiles files
  else uploadQueue

end Step1Upload

/-! ### Concrete admission and crop inputs used by witnesses and counterexamples -/

/-- A valid 1 KB JPEG candidate file. -/
def jpegFile : FileValidation.FileDesc :=
  { name := "scan.jpg", type := "image/jpeg", size := 1024 }

/-- An invalid-typed 10 KB plain-text candidate file. -/
def textFile : FileValidation.FileDesc :=
  { name := "notes.txt", type := "text/plain", size := 10240 }

/-- A queue already holding 199 valid files. -/
def queue199 : List FileValidation.FileDesc := List.replicate 199 jpegFile

/-! ### Crop geometry (`CropTool.tsx`, `Step2Crop.tsx`) -/

/-- `CropData` from `src/types.ts` (passport flow). JS numbers are
embedded as rationals. -/
structure CropData where
  x : ℚ
  y : ℚ
  width : ℚ
  height : ℚ
  displayWidth : ℚ
  displayHeight : ℚ
  naturalWidth : ℚ
  naturalHeight : ℚ
  zoom : ℚ
deriving DecidableEq, Repr

namespace CropTool

/-- Embeds `updateCropData` (CropTool.tsx, lines 301-347) as a pure
function of the measured geometry: container size, the image's rendered
(pre-zoom) display size, the crop box size, the image's natural pixel
size, and the interaction state (zoom, pan position). -/
def updateCropData (containerWidth containerHeight : ℚ)
    (displayWidth displayHeight : ℚ) (cropWidth cropHeight : ℚ)
    (naturalWidth naturalHeight : ℚ) (zoom posX posY : ℚ) : CropData :=
  let containerCenterX := containerWidth / 2
  let containerCenterY := containerHeight / 2
  let cropCenterX := containerCenterX
  let cropCenterY := containerCenterY
  let imageLeft := containerCenterX + posX - (displayWidth * zoom) / 2
  let imageTop := containerCenterY + posY - (displayHeight * zoom) / 2
  let cropLeftOnImage := (cropCenterX - cropWidth / 2 - imageLeft) / zoom
  let cropTopOnImage := (cropCenterY - cropHeight / 2 - imageTop) / zoom
  let cropWidthOnImage := cropWidth / zoom
  let cropHeightOnImage := cropHeight / zoom
  { x := cropLeftOnImage / displayWidth,
    y := cropTopOnImage / displayHeight,
    width := cropWidthOnImage / displayWidth,
    height := cropHeightOnImage / displayHeight,
    displayWidth := displayWidth,
    displayHeight := displayHeight,
    naturalWidth := naturalWidth,
    naturalHeight := naturalHeight,
    zoom := zoom }

end CropTool

namespace Step2Crop

/-- Embeds `handleContinue` (Step2Crop.tsx, lines 22-60), reduced to
whether `onCropComplete` is reached: `false` on missing crop data, on
unknown (zero) natural dimensions, when `x` or `y` falls outside `[0, 1]`,
or when `width` or `height` falls outside `(0, 1]`. -/
def handleContinue (cropData : Option CropData) : Bool :=
  match cropData with
  | none => false
  | some d =>
    if d.naturalWidth = 0 ∨ d.naturalHeight = 0 then false
    else if d.x < 0 ∨ d.x > 1 ∨ d.y < 0 ∨ d.y > 1 then false
    else if d.width ≤ 0 ∨ d.width > 1 ∨ d.height ≤ 0 ∨ d.height > 1 then false
    else true

end Step2Crop

/-- A crop rectangle whose right edge overhangs the image: `x = 0.9`,
`width = 0.5`, so `x + width = 1.4 > 1`. -/
def overhangingCrop : CropData :=
  { x := 9 / 10, y := 0, width := 1 / 2, height := 1 / 2,
    displayWidth := 400, displayHeight := 300,
    naturalWidth := 4000, naturalHeight := 3000, zoom := 1 }

/-! ### Generic list bookkeeping lemmas -/

section ListHelpers

variable {α : Type}

/-- Splitting a list's length by a predicate. -/
theorem length_filter_not_add (p : α → Bool) (l : List α) :
    (l.filter (fun a => !(p a))).length + (l.filter p).length = l.length := by
  induction l with
  | nil => rfl
  | cons a t ih =>
    cases h : p a
    · simp only [List.filter_cons, h, Bool.not_false, if_true, if_false,
        List.length_cons, Bool.false_eq_true, ite_false, ite_true]
      omega
    · simp only [List.filter_cons, h, Bool.not_true, if_true, if_false,
        List.length_cons, Bool.false_eq_true, ite_false, ite_true]
      omega

/-- Splitting a list's length by two mutually exclusive predicates. -/
theorem length_filter_not_two (pA pB : α → Bool) (l : List α) :
    (∀ a ∈ l, ¬(pA a = true ∧ pB a = true)) →
    (l.filter (fun a => !(pA a) && !(pB a))).length
      + (l.filter pA).length + (l.filter pB).length = l.length := by
  induction l with
  | nil =>
    intro _
    rfl
  | cons a t ih =>
    intro hdisj
    have iht := ih (fun b hb => hdisj b (List.mem_cons_of_mem a hb))
    cases hA : pA a
    · cases hB : pB a
      · simp only [List.filter_cons, hA, hB, Bool.not_false, Bool.true_and,
          Bool.false_eq_true, ite_false, ite_true, List.length_cons]
        omega
      · simp only [List.filter_cons, hA, hB, Bool.not_false, Bool.not_true,
          Bool.true_and, Bool.false_eq_true, ite_false, ite_true,
          List.length_cons]
        omega
    · have hB : pB a = false := by
        cases hB : pB a
        · rfl
        · exact absurd ⟨hA, hB⟩ (hdisj a (List.mem_cons_self a t))
      simp only [List.filter_cons, hA, hB, Bool.not_true, Bool.false_and,
        Bool.false_eq_true, ite_false, ite_true, List.length_cons]
      omega

/-- When the predicate's filter is the singleton `[x]`, `find?` returns
`x`. -/
theorem find?_of_filter_singleton (p : α → Bool) (l : List α) (x : α)
    (h : l.filter p = [x]) : l.find? p = some x := by
  induction l with
  | nil => cases h
  | cons a t ih =>
    by_cases ha : p a = true
    · rw [List.filter_cons_of_pos ha] at h
      injection h with h1 h2
      rw [List.find?_cons_of_pos t ha, h1]
    · rw [List.filter_cons_of_neg (by simp [ha])] at h
      rw [List.find?_cons_of_neg t ha]
      exact ih h

/-- Every member of a predicate's empty filter refutes the predicate. -/
theorem not_pred_of_filter_nil (p : α → Bool) (l : List α)
    (h : l.filter p = []) : ∀ b ∈ l, p b = false := by
  intro b hb
  cases hpb : p b
  · rfl
  · exfalso
    have hmem : b ∈ l.filter p := List.mem_filter.mpr ⟨hb, hpb⟩
    rw [h] at hmem
    cases hmem

/-- A filter refuted everywhere on the complement keeps the whole list. -/
theorem filter_not_of_filter_nil (p : α → Bool) (l : List α)
    (h : l.filter p = []) : l.filter (fun a => !(p a)) = l := by
  have hall : ∀ b ∈ l, (fun a => !(p a)) b = (fun _ => true) b := by
    intro b hb
    simp [not_pred_of_filter_nil p l h b hb]
  rw [List.filter_congr hall, List.filter_true]

/-- When the predicate's filter is the singleton `[x]`, keeping the
complement is exactly erasing `x`. -/
theorem filter_not_of_filter_singleton [DecidableEq α] (p : α → Bool)
    (l : List α) (x : α) (h : l.filter p = [x]) :
    l.filter (fun a => !(p a)) = l.erase x := by
  induction l with
  | nil => cases h
  | cons a t ih =>
    by_cases ha : p a = true
    · rw [List.filter_cons_of_pos ha] at h
      injection h with h1 h2
      subst h1
      rw [List.filter_cons_of_neg (by simp [ha]), List.erase_cons_head]
      exact filter_not_of_filter_nil p t h2
    · rw [List.filter_cons_of_neg (by simp [ha])] at h
      have hax : a ≠ x := by
        intro he
        have hx : p x = true := by
          have : x ∈ t.filter p := by
            rw [h]
            exact List.mem_cons_self x []
          exact (List.mem_filter.mp this).2
        rw [he] at ha
        exact ha hx
      rw [List.filter_cons_of_pos (by simp [ha]),
        List.erase_cons_tail (by simp [hax])]
      exact congrArg (a :: ·) (ih h)

/-- `find?` skips a prefix on which the predicate is everywhere false. -/
theorem find?_append_of_false (p : α → Bool) (l₁ l₂ : List α)
    (h : ∀ a ∈ l₁, p a = false) : (l₁ ++ l₂).find? p = l₂.find? p := by
  induction l₁ with
  | nil => rfl
  | cons a t ih =>
    rw [List.cons_append,
      List.find?_cons_of_neg (t ++ l₂) (by simp [h a (List.mem_cons_self a t)])]
    exact ih (fun b hb => h b (List.mem_cons_of_mem a hb))

end ListHelpers

/-! ### C1: characterization of `canPair` -/

/-- On every member of the closed `DocumentType` union, removing the first
occurrence of `_front` (resp. `_back`) — what `String.replace` does —
agrees with removing a trailing `_front` (resp. `_back`) suffix. -/
theorem replace_strip_agree (t : DocumentType) :
    replaceFirst "_front".toList t.tag.toList =
      baseTypeStrippingSuffix "_front".toList t.tag.toList ∧
    replaceFirst "_back".toList t.tag.toList =
      baseTypeStrippingSuffix "_back".toList t.tag.toList := by
  cases t <;> exact ⟨by decide, by decide⟩

/-- C1. `canPair(a, b)` returns true iff both documents are categorized
`id_card`, `side(a) = front`, `side(b) = back`, and the base type of `a`
(type tag with the trailing `_front` removed) equals the base type of `b`
(type tag with the trailing `_back` removed); consequently a pair that
validates in one order fails with the arguments swapped. -/
theorem canPair_characterization (a b : CleanedDocument) :
    (canPair a b = true ↔
      (a.detectedCategory = DocumentCategory.id_card ∧
       b.detectedCategory = DocumentCategory.id_card ∧
       getDocumentSide a.detectedType = some Side.front ∧
       getDocumentSide b.detectedType = some Side.back ∧
       baseTypeStrippingSuffix "_front".toList a.detectedType.tag.toList =
         baseTypeStrippingSuffix "_back".toList b.detectedType.tag.toList)) ∧
    (canPair a b = true → canPair b a = false) := by
  have key : ∀ x y : CleanedDocument, canPair x y = true ↔
      (x.detectedCategory = DocumentCategory.id_card ∧
       y.detectedCategory = DocumentCategory.id_card ∧
       getDocumentSide x.detectedType = some Side.front ∧
       getDocumentSide y.detectedType = some Side.back ∧
       baseTypeStrippingSuffix "_front".toList x.detectedType.tag.toList =
         baseTypeStrippingSuffix "_back".toList y.detectedType.tag.toList) := by
    intro x y
    unfold canPair
    split_ifs with h1 h2
    · constructor
      · intro h
        cases h
      · rintro ⟨hc1, hc2, -, -, -⟩
        rcases h1 with h | h
        · exact absurd hc1 h
        · exact absurd hc2 h
    · constructor
      · intro h
        cases h
      · rintro ⟨-, -, hs1, hs2, -⟩
        rcases h2 with h | h
        · exact absurd hs1 h
        · exact absurd hs2 h
    · push_neg at h1 h2
      rw [decide_eq_true_eq, (replace_strip_agree x.detectedType).1,
        (replace_strip_agree y.detectedType).2]
      constructor
      · intro hb
        exact ⟨h1.1, h1.2, h2.1, h2.2, hb⟩
      · rintro ⟨-, -, -, -, hb⟩
        exact hb
  refine ⟨key a b, ?_⟩
  intro h
  obtain ⟨-, -, -, hback, -⟩ := (key a b).mp h
  cases hq : canPair b a
  · rfl
  · obtain ⟨-, -, hfront, -, -⟩ := (key b a).mp hq
    rw [hback] at hfront
    cases hfront

/-- Evaluation witness for C1 at a concrete valid pair. -/
theorem canPair_characterization_witness :
    canPair dAadhaarFront dAadhaarBack = true ∧
    canPair dAadhaarBack dAadhaarFront = false :=
  ⟨by decide, (canPair_characterization dAadhaarFront dAadhaarBack).2 (by decide)⟩

/-! ### C2: finalize is blocked iff unpaired is non-empty -/

/-- C2. The Continue/finalize operation hands `(pairedIDs, singleDocs)`
forward exactly when the unpaired list is empty; when it is non-empty the
handler is blocked and reports exactly how many cards remain (the state
is not modified: `handleContinue` does not produce a new state at all). -/
theorem handleContinue_blocked_iff (st : Step3Pairing.PairingState) :
    (Step3Pairing.handleContinue st =
        Step3Pairing.ContinueResult.proceed st.pairedIDs st.singleDocs ↔
      st.unpairedIDs = []) ∧
    (st.unpairedIDs ≠ [] →
      Step3Pairing.handleContinue st =
        Step3Pairing.ContinueResult.blocked st.unpairedIDs.length) := by
  unfold Step3Pairing.handleContinue
  constructor
  · constructor
    · intro h
      split at h
      · cases h
      · next hlen => exact List.length_eq_zero.mp (by omega)
    · intro h
      simp [h]
  · intro h
    have : 0 < st.unpairedIDs.length := List.length_pos.mpr h
    simp [this]

/-- Evaluation witness for C2 at a concrete blocked state. -/
theorem handleContinue_blocked_iff_witness :
    Step3Pairing.handleContinue
        { pairedIDs := [],
          unpairedIDs := [{ id := "u1", document := dAadhaarFront,
                            side := .front, status := .unpaired,
                            reason := .no_match }],
          singleDocs := [] } =
      Step3Pairing.ContinueResult.blocked 1 :=
  (handleContinue_blocked_iff _).2 (by decide)

/-! ### C3: the layout planner's page count -/

/-- C3. For all counts, the id layout yields `⌈(paired + singles) / 2⌉`
pages (stated with the exact rational ceiling), the document layout
yields `paired + singles` pages; in particular `plan(3, 1, id_layout) = 2`
and zero counts give zero pages under either layout. -/
theorem calculateTotalPages_spec (p s : Nat) :
    ((Step5PrintSetup.calculateTotalPages p s .id_layout : ℤ) =
        ⌈(((p : ℚ) + (s : ℚ)) / 2)⌉) ∧
    Step5PrintSetup.calculateTotalPages p s .document_layout = p + s ∧
    Step5PrintSetup.calculateTotalPages 3 1 .id_layout = 2 ∧
    Step5PrintSetup.calculateTotalPages 0 0 .id_layout = 0 ∧
    Step5PrintSetup.calculateTotalPages 0 0 .document_layout = 0 := by
  refine ⟨?_, rfl, rfl, rfl, rfl⟩
  have hcast : ((p : ℚ) + (s : ℚ)) = ((p + s : Nat) : ℚ) := by
    push_cast
    ring
  rw [hcast]
  show (((p + s + 1) / 2 : Nat) : ℤ) = ⌈(((p + s : Nat) : ℚ) / 2)⌉
  generalize p + s = n
  rw [eq_comm, Int.ceil_eq_iff]
  have hm1 : ((((n + 1) / 2 : Nat) : ℤ) : ℚ) * 2 ≤ (n : ℚ) + 1 := by
    have h : ((n + 1) / 2) * 2 ≤ n + 1 := by omega
    exact_mod_cast h
  have hm2 : (n : ℚ) ≤ ((((n + 1) / 2 : Nat) : ℤ) : ℚ) * 2 := by
    have h : n ≤ ((n + 1) / 2) * 2 := by omega
    exact_mod_cast h
  have e : ((n : ℚ)) = (n : ℚ) / 2 * 2 := by ring
  constructor
  · rw [sub_lt_iff_lt_add]
    linarith
  · linarith

/-! ### C8: id layout never needs more pages than document layout -/

/-- C8. For all counts, `totalPages(id_layout) ≤ totalPages(document_layout)`. -/
theorem calculateTotalPages_id_le_document (p s : Nat) :
    Step5PrintSetup.calculateTotalPages p s .id_layout ≤
      Step5PrintSetup.calculateTotalPages p s .document_layout := by
  show (p + s + 1) / 2 ≤ p + s
  omega

/-! ### C4: admission order of batch-limit check and per-item filtering -/

/-- Counterexample to C4. With 199 files queued and a selection of four
invalid-typed files plus one valid file, the code rejects the whole
selection (the raw count 199 + 5 = 204 exceeds 200 before any filtering),
while the claimed order would have filtered first (leaving one valid
file, 199 + 1 ≤ 200) and admitted it: the invalid-typed files do count
toward the batch check. -/
theorem handleFileSelect_order_counterexample :
    Step1Upload.handleFileSelect [textFile, textFile, textFile, textFile, jpegFile]
        queue199 = queue199 ∧
    Step1Upload.handleFileSelectClaimOrder
        [textFile, textFile, textFile, textFile, jpegFile] queue199 =
      queue199 ++ [jpegFile] ∧
    Step1Upload.handleFileSelect [textFile, textFile, textFile, textFile, jpegFile]
        queue199 ≠
      Step1Upload.handleFileSelectClaimOrder
        [textFile, textFile, textFile, textFile, jpegFile] queue199 := by
  refine ⟨by decide, by decide, by decide⟩

/-- C4 (amended). Admission first checks the entire incoming selection —
invalid-typed items included — against the batch limit (`queued +
incoming ≤ 200`), rejecting the whole selection all-or-nothing; only when
that check passes are the files filtered item-by-item through the type
and size predicates and the valid subset appended to the queue. -/
theorem handleFileSelect_amended (files uploadQueue : List FileValidation.FileDesc) :
    (uploadQueue.length + files.length > 200 →
      Step1Upload.handleFileSelect files uploadQueue = uploadQueue) ∧
    (uploadQueue.length + files.length ≤ 200 →
      Step1Upload.handleFileSelect files uploadQueue =
        uploadQueue ++ FileValidation.validateFiles files) := by
  constructor
  · intro hgt
    unfold Step1Upload.handleFileSelect
    split_ifs with h1 h2 h3
    · rfl
    · rfl
    · exfalso
      unfold FileValidation.validateBatch at h2
      simp only [FileValidation.MAX_BATCH_SIZE] at h2
      rw [if_pos hgt] at h2
      exact Bool.false_ne_true h2
    · rfl
  · intro hle
    unfold Step1Upload.handleFileSelect
    split_ifs with h1 h2 h3
    · have hnil : files = [] := List.length_eq_zero.mp h1
      subst hnil
      simp [FileValidation.validateFiles]
    · have hnil : FileValidation.validateFiles files = [] :=
        List.length_eq_zero.mp h3
      rw [hnil, List.append_nil]
    · rfl
    · exfalso
      apply h2
      unfold FileValidation.validateBatch
      simp only [FileValidation.MAX_BATCH_SIZE]
      rw [if_neg (by omega)]

/-- Evaluation witness for the amended C4: a two-file selection with one
invalid item against an empty queue admits exactly the valid file. -/
theorem handleFileSelect_amended_witness :
    (0 : Nat) + 2 ≤ 200 ∧
    Step1Upload.handleFileSelect [textFile, jpegFile] [] = [jpegFile] := by
  refine ⟨by decide, ?_⟩
  have h := (handleFileSelect_amended [textFile, jpegFile] []).2 (by decide)
  rw [h]
  decide

/-! ### C5: which crop rectangles the consuming stage accepts -/

/-- Counterexample to C5. The consuming stage accepts a rectangle with
`x + width = 1.4 > 1`: the stage checks `x ∈ [0, 1]` and `width ∈ (0, 1]`
separately and never checks `x + width ≤ 1` (nor `y + height ≤ 1`). -/
theorem handleContinue_accepts_overhang :
    Step2Crop.handleContinue (some overhangingCrop) = true ∧
    ¬ (overhangingCrop.x + overhangingCrop.width ≤ 1) := by
  constructor
  · unfold Step2Crop.handleContinue overhangingCrop
    norm_num
  · unfold overhangingCrop
    norm_num

/-- C5 (amended). The consuming stage proceeds with `onCropComplete`
exactly when crop data is present, the natural dimensions are known
(non-zero), `0 ≤ x ≤ 1`, `0 ≤ y ≤ 1`, `0 < width ≤ 1` and
`0 < height ≤ 1`; rectangles violating these bounds are rejected, not
clamped — but the sums `x + width` and `y + height` are not constrained
and may exceed 1. -/
theorem handleContinue_accepts_iff (d : CropData) :
    Step2Crop.handleContinue (some d) = true ↔
      (d.naturalWidth ≠ 0 ∧ d.naturalHeight ≠ 0 ∧
       0 ≤ d.x ∧ d.x ≤ 1 ∧ 0 ≤ d.y ∧ d.y ≤ 1 ∧
       0 < d.width ∧ d.width ≤ 1 ∧ 0 < d.height ∧ d.height ≤ 1) := by
  simp only [Step2Crop.handleContinue]
  split_ifs with h1 h2 h3
  · constructor
    · intro h
      cases h
    · rintro ⟨hn1, hn2, -⟩
      rcases h1 with h | h
      · exact absurd h hn1
      · exact absurd h hn2
  · constructor
    · intro h
      cases h
    · rintro ⟨-, -, hx0, hx1, hy0, hy1, -⟩
      rcases h2 with h | h | h | h
      · exact absurd hx0 (not_le.mpr h)
      · exact absurd hx1 (not_le.mpr h)
      · exact absurd hy0 (not_le.mpr h)
      · exact absurd hy1 (not_le.mpr h)
  · constructor
    · intro h
      cases h
    · rintro ⟨-, -, -, -, -, -, hw0, hw1, hh0, hh1⟩
      rcases h3 with h | h | h | h
      · exact absurd hw0 (not_lt.mpr h)
      · exact absurd hw1 (not_le.mpr h)
      · exact absurd hh0 (not_lt.mpr h)
      · exact absurd hh1 (not_le.mpr h)
  · push_neg at h1 h2 h3
    constructor
    · intro _
      exact ⟨h1.1, h1.2, h2.1, h2.2.1, h2.2.2.1, h2.2.2.2,
        h3.1, h3.2.1, h3.2.2.1, h3.2.2.2⟩
    · intro _
      rfl

/-! ### C7: identity crop for zoom 1, centered, exact-size crop box -/

/-- C7. With `zoom = 1`, `pan = (0, 0)` and the (always centered) crop
box sized to exactly the image's displayed width and height, the computed
normalized rectangle is `{x: 0, y: 0, width: 1, height: 1}` for any
container size, positive display size and known (positive) natural size. -/
theorem updateCropData_identity (containerWidth containerHeight : ℚ)
    (displayWidth displayHeight naturalWidth naturalHeight : ℚ)
    (hdw : 0 < displayWidth) (hdh : 0 < displayHeight)
    (_hnw : 0 < naturalWidth) (_hnh : 0 < naturalHeight) :
    (CropTool.updateCropData containerWidth containerHeight
        displayWidth displayHeight displayWidth displayHeight
        naturalWidth naturalHeight 1 0 0).x = 0 ∧
    (CropTool.updateCropData containerWidth containerHeight
        displayWidth displayHeight displayWidth displayHeight
        naturalWidth naturalHeight 1 0 0).y = 0 ∧
    (CropTool.updateCropData containerWidth containerHeight
        displayWidth displayHeight displayWidth displayHeight
        naturalWidth naturalHeight 1 0 0).width = 1 ∧
    (CropTool.updateCropData containerWidth containerHeight
        displayWidth displayHeight displayWidth displayHeight
        naturalWidth naturalHeight 1 0 0).height = 1 := by
  unfold CropTool.updateCropData
  refine ⟨?_, ?_, ?_, ?_⟩
  · show (containerWidth / 2 - displayWidth / 2 -
        (containerWidth / 2 + 0 - displayWidth * 1 / 2)) / 1 / displayWidth = 0
    field_simp
  · show (containerHeight / 2 - displayHeight / 2 -
        (containerHeight / 2 + 0 - displayHeight * 1 / 2)) / 1 / displayHeight = 0
    field_simp
  · show displayWidth / 1 / displayWidth = 1
    field_simp
  · show displayHeight / 1 / displayHeight = 1
    field_simp

/-- Evaluation witness for C7 at a concrete geometry. -/
theorem updateCropData_identity_witness :
    (CropTool.updateCropData 800 600 400 300 400 300 4000 3000 1 0 0).x = 0 ∧
    (CropTool.updateCropData 800 600 400 300 400 300 4000 3000 1 0 0).y = 0 ∧
    (CropTool.updateCropData 800 600 400 300 400 300 4000 3000 1 0 0).width = 1 ∧
    (CropTool.updateCropData 800 600 400 300 400 300 4000 3000 1 0 0).height = 1 :=
  updateCropData_identity 800 600 400 300 4000 3000
    (by norm_num) (by norm_num) (by norm_num) (by norm_num)

/-! ### C6: unpair then re-pair round trip -/

/-- C6. For a pair `p` in the paired list (its id occurring once, its
documents satisfying the `Pair` invariant `canPair`, its document ids
distinct and not present among the unpaired candidates), `handleUnpair`
removes the pair and appends its two sides to `unpaired` — front first,
then back, both with reason `no_match` — and a subsequent
`handleManualPair` on the same two document ids succeeds, reproducing a
pair with the same front and back documents (method `manual`,
confidence 100), and restores the unpaired list. -/
theorem unpair_then_repair
    (st : Step3Pairing.PairingState) (p : PairedIDCard) (now₁ now₂ : Nat)
    (st' : Step3Pairing.PairingState)
    (hponce : st.pairedIDs.filter (fun q => q.id == p.id) = [p])
    (hcan : canPair p.frontDoc p.backDoc = true)
    (hfresh : ∀ u ∈ st.unpairedIDs,
      u.document.id ≠ p.frontDoc.id ∧ u.document.id ≠ p.backDoc.id)
    (hne : p.frontDoc.id ≠ p.backDoc.id)
    (hst' : st' = Step3Pairing.handleUnpair p.id now₁ st) :
    st'.pairedIDs = st.pairedIDs.erase p ∧
    st'.unpairedIDs = st.unpairedIDs ++
      [{ id := "unpaired_front_" ++ toString now₁, document := p.frontDoc,
         side := .front, status := .unpaired, reason := .no_match },
       { id := "unpaired_back_" ++ toString now₁, document := p.backDoc,
         side := .back, status := .unpaired, reason := .no_match }] ∧
    ∃ q st'',
      Step3Pairing.handleManualPair p.frontDoc.id p.backDoc.id now₂ st' =
        (st'', some q) ∧
      q.frontDoc = p.frontDoc ∧ q.backDoc = p.backDoc ∧
      q.pairingMethod = PairingMethod.manual ∧ q.confidence = 100 ∧
      st''.pairedIDs = st.pairedIDs.erase p ++ [q] ∧
      st''.unpairedIDs = st.unpairedIDs := by
  subst hst'
  have hfind := find?_of_filter_singleton (fun q => q.id == p.id) st.pairedIDs p hponce
  have hpaired' : (Step3Pairing.handleUnpair p.id now₁ st).pairedIDs =
      st.pairedIDs.erase p := by
    unfold Step3Pairing.handleUnpair
    rw [hfind]
    show st.pairedIDs.filter (fun q => q.id != p.id) = st.pairedIDs.erase p
    have hflt := filter_not_of_filter_singleton (fun q => q.id == p.id)
      st.pairedIDs p hponce
    simpa [bne] using hflt
  have hunpaired' : (Step3Pairing.handleUnpair p.id now₁ st).unpairedIDs =
      st.unpairedIDs ++
        [{ id := "unpaired_front_" ++ toString now₁, document := p.frontDoc,
           side := .front, status := .unpaired, reason := .no_match },
         { id := "unpaired_back_" ++ toString now₁, document := p.backDoc,
           side := .back, status := .unpaired, reason := .no_match }] := by
    unfold Step3Pairing.handleUnpair
    rw [hfind]
  refine ⟨hpaired', hunpaired', ?_⟩
  have hfind1 : (Step3Pairing.handleUnpair p.id now₁ st).unpairedIDs.find?
      (fun u => u.document.id == p.frontDoc.id) =
      some { id := "unpaired_front_" ++ toString now₁, document := p.frontDoc,
             side := .front, status := .unpaired, reason := .no_match } := by
    rw [hunpaired', find?_append_of_false _ _ _
      (fun u hu => beq_eq_false_iff_ne.mpr (hfresh u hu).1)]
    rw [List.find?_cons_of_pos _ (by simp)]
  have hfind2 : (Step3Pairing.handleUnpair p.id now₁ st).unpairedIDs.find?
      (fun u => u.document.id == p.backDoc.id) =
      some { id := "unpaired_back_" ++ toString now₁, document := p.backDoc,
             side := .back, status := .unpaired, reason := .no_match } := by
    rw [hunpaired', find?_append_of_false _ _ _
      (fun u hu => beq_eq_false_iff_ne.mpr (hfresh u hu).2)]
    rw [List.find?_cons_of_neg _ (by simp [hne]),
      List.find?_cons_of_pos _ (by simp)]
  refine ⟨{ id := "pair_" ++ toString now₂, frontDoc := p.frontDoc,
            backDoc := p.backDoc, confidence := 100,
            pairingMethod := .manual, status := .paired },
          (Step3Pairing.handleManualPair p.frontDoc.id p.backDoc.id now₂
            (Step3Pairing.handleUnpair p.id now₁ st)).1,
          ?_, rfl, rfl, rfl, rfl, ?_, ?_⟩
  · simp only [Step3Pairing.handleManualPair, hfind1, hfind2, hcan, if_true]
  · simp only [Step3Pairing.handleManualPair, hfind1, hfind2, hcan, if_true]
    rw [hpaired']
  · simp only [Step3Pairing.handleManualPair, hfind1, hfind2, hcan, if_true]
    rw [hunpaired', List.filter_append]
    have hkeep : st.unpairedIDs.filter
        (fun u => u.document.id != p.frontDoc.id &&
          u.document.id != p.backDoc.id) = st.unpairedIDs := by
      have hall : ∀ u ∈ st.unpairedIDs,
          (fun u => u.document.id != p.frontDoc.id &&
            u.document.id != p.backDoc.id) u = (fun _ => true) u := by
        intro u hu
        simp [bne_iff_ne, (hfresh u hu).1, (hfresh u hu).2]
      rw [List.filter_congr hall, List.filter_true]
    rw [hkeep]
    simp

/-! ### C9: the pairing state machine conserves documents -/

/-- C9. The quantity `2 * paired.length + unpaired.length` is preserved:
a failed manual pair leaves the state unchanged; a successful manual pair
(with both ids present exactly once and distinct) removes exactly two
candidates and appends exactly one pair; unpair on a pair id occurring
exactly once removes one pair and appends exactly two candidates; unpair
on an absent id is a no-op. -/
theorem pairing_conservation :
    (∀ frontId backId now st,
      (Step3Pairing.handleManualPair frontId backId now st).2 = none →
        (Step3Pairing.handleManualPair frontId backId now st).1 = st) ∧
    (∀ frontId backId now st q,
      (st.unpairedIDs.filter (fun u => u.document.id == frontId)).length = 1 →
      (st.unpairedIDs.filter (fun u => u.document.id == backId)).length = 1 →
      frontId ≠ backId →
      (Step3Pairing.handleManualPair frontId backId now st).2 = some q →
        (Step3Pairing.handleManualPair frontId backId now st).1.pairedIDs.length =
          st.pairedIDs.length + 1 ∧
        (Step3Pairing.handleManualPair frontId backId now st).1.unpairedIDs.length + 2 =
          st.unpairedIDs.length ∧
        Step3Pairing.docCount (Step3Pairing.handleManualPair frontId backId now st).1 =
          Step3Pairing.docCount st) ∧
    (∀ pairId now st,
      (st.pairedIDs.filter (fun q => q.id == pairId)).length = 1 →
        (Step3Pairing.handleUnpair pairId now st).pairedIDs.length + 1 =
          st.pairedIDs.length ∧
        (Step3Pairing.handleUnpair pairId now st).unpairedIDs.length =
          st.unpairedIDs.length + 2 ∧
        Step3Pairing.docCount (Step3Pairing.handleUnpair pairId now st) =
          Step3Pairing.docCount st) ∧
    (∀ pairId now st,
      st.pairedIDs.find? (fun q => q.id == pairId) = none →
        Step3Pairing.handleUnpair pairId now st = st) := by
  refine ⟨?_, ?_, ?_, ?_⟩
  · intro frontId backId now st h
    unfold Step3Pairing.handleManualPair at h ⊢
    cases h1 : st.unpairedIDs.find? (fun u => u.document.id == frontId) with
    | none =>
      simp only [h1]
    | some fc =>
      cases h2 : st.unpairedIDs.find? (fun u => u.document.id == backId) with
      | none =>
        simp only [h1, h2]
      | some bc =>
        rw [h1, h2] at h
        simp only [h1, h2]
        by_cases hc : canPair fc.document bc.document = true
        · simp only [hc, if_true] at h
          cases h
        · simp only [hc, if_false, Bool.false_eq_true, ite_false]
  · intro frontId backId now st q hf hb hne hsucc
    unfold Step3Pairing.handleManualPair at hsucc ⊢
    cases h1 : st.unpairedIDs.find? (fun u => u.document.id == frontId) with
    | none =>
      rw [h1] at hsucc
      cases hsucc
    | some fc =>
      cases h2 : st.unpairedIDs.find? (fun u => u.document.id == backId) with
      | none =>
        rw [h1, h2] at hsucc
        cases hsucc
      | some bc =>
        rw [h1, h2] at hsucc
        simp only [h1, h2]
        by_cases hc : canPair fc.document bc.document = true
        · simp only [hc, if_true]
          have hdisj : ∀ u ∈ st.unpairedIDs,
              ¬((fun u : UnpairedIDCard => u.document.id == frontId) u = true ∧
                (fun u : UnpairedIDCard => u.document.id == backId) u = true) := by
            rintro u _ ⟨hA, hB⟩
            exact hne ((eq_of_beq hA).symm.trans (eq_of_beq hB))
          have hsum : (st.unpairedIDs.filter
                (fun u => !(u.document.id == frontId) &&
                  !(u.document.id == backId))).length +
              (st.unpairedIDs.filter (fun u => u.document.id == frontId)).length +
              (st.unpairedIDs.filter (fun u => u.document.id == backId)).length =
              st.unpairedIDs.length :=
            length_filter_not_two _ _ st.unpairedIDs hdisj
          refine ⟨?_, ?_, ?_⟩
          · simp
          · simp only [bne]
            omega
          · unfold Step3Pairing.docCount
            simp only [bne, List.length_append, List.length_cons,
              List.length_nil]
            omega
        · simp only [hc, if_false, Bool.false_eq_true, ite_false] at hsucc
          cases hsucc
  · intro pairId now st hcount
    have hex : ∃ pr, st.pairedIDs.find? (fun q => q.id == pairId) = some pr := by
      cases hfind : st.pairedIDs.find? (fun q => q.id == pairId) with
      | some pr => exact ⟨pr, rfl⟩
      | none =>
        exfalso
        have hnone := List.find?_eq_none.mp hfind
        have hpos : 0 < (st.pairedIDs.filter (fun q => q.id == pairId)).length := by
          omega
        obtain ⟨x, hx⟩ := List.exists_mem_of_length_pos hpos
        obtain ⟨hxl, hpx⟩ := List.mem_filter.mp hx
        exact hnone x hxl hpx
    obtain ⟨pr, hfind⟩ := hex
    have hsplit := length_filter_not_add
      (fun q : PairedIDCard => q.id == pairId) st.pairedIDs
    unfold Step3Pairing.handleUnpair
    rw [hfind]
    refine ⟨?_, ?_, ?_⟩
    · show (st.pairedIDs.filter (fun q => q.id != pairId)).length + 1 =
        st.pairedIDs.length
      simp only [bne]
      omega
    · show (st.unpairedIDs ++ [_, _]).length = st.unpairedIDs.length + 2
      simp
    · unfold Step3Pairing.docCount
      show 2 * (st.pairedIDs.filter (fun q => q.id != pairId)).length +
          (st.unpairedIDs ++ [_, _]).length =
        2 * st.pairedIDs.length + st.unpairedIDs.length
      simp only [bne, List.length_append, List.length_cons, List.length_nil]
      omega
  · intro pairId now st h
    unfold Step3Pairing.handleUnpair
    rw [h]

/-- Evaluation witness for C6 at the concrete one-pair state. -/
theorem unpair_then_repair_witness :
    (Step3Pairing.handleUnpair pair0.id 0 st0).pairedIDs =
      st0.pairedIDs.erase pair0 ∧
    (Step3Pairing.handleUnpair pair0.id 0 st0).unpairedIDs =
      st0.unpairedIDs ++
        [{ id := "unpaired_front_" ++ toString 0, document := pair0.frontDoc,
           side := .front, status := .unpaired, reason := .no_match },
         { id := "unpaired_back_" ++ toString 0, document := pair0.backDoc,
           side := .back, status := .unpaired, reason := .no_match }] ∧
    ∃ q st'',
      Step3Pairing.handleManualPair pair0.frontDoc.id pair0.backDoc.id 1
          (Step3Pairing.handleUnpair pair0.id 0 st0) = (st'', some q) ∧
      q.frontDoc = pair0.frontDoc ∧ q.backDoc = pair0.backDoc ∧
      q.pairingMethod = PairingMethod.manual ∧ q.confidence = 100 ∧
      st''.pairedIDs = st0.pairedIDs.erase pair0 ++ [q] ∧
      st''.unpairedIDs = st0.unpairedIDs :=
  unpair_then_repair st0 pair0 0 1 (Step3Pairing.handleUnpair pair0.id 0 st0)
    (by decide) (by decide) (by decide) (by decide) rfl

/-- Evaluation witness for C9: unpairing the concrete pair preserves the
document count. -/
theorem pairing_conservation_witness :
    Step3Pairing.docCount (Step3Pairing.handleUnpair pair0.id 5 st0) =
      Step3Pairing.docCount st0 :=
  (pairing_conservation.2.2.1 pair0.id 5 st0 (by decide)).2.2

/-! ### C10: rotation bumps by 90 mod 360 and changes nothing else -/

/-- A map whose function fixes every element of a list is the identity. -/
theorem map_eq_self_of {α : Type} (l : List α) (f : α → α)
    (h : ∀ a ∈ l, f a = a) : l.map f = l := by
  calc l.map f = l.map id := List.map_congr_left h
    _ = l := List.map_id l

/-- `rotatePairEntry` with `isFront = some true` fixes pairs whose front
document has a different id. -/
theorem rotatePairEntry_front_skip (docId : String) (q : PairedIDCard)
    (h : q.frontDoc.id ≠ docId) :
    Step4Review.rotatePairEntry docId (some true) q = q := by
  unfold Step4Review.rotatePairEntry
  rw [if_neg (fun hc => h hc.2), if_neg (by simp)]

/-- `rotatePairEntry` with `isFront = some false` fixes pairs whose back
document has a different id. -/
theorem rotatePairEntry_back_skip (docId : String) (q : PairedIDCard)
    (h : q.backDoc.id ≠ docId) :
    Step4Review.rotatePairEntry docId (some false) q = q := by
  unfold Step4Review.rotatePairEntry
  rw [if_neg (by simp), if_neg (fun hc => h hc.2)]

/-- `rotateSingleEntry` fixes documents with a different id. -/
theorem rotateSingleEntry_skip (docId : String) (d : CleanedDocument)
    (h : d.id ≠ docId) :
    Step4Review.rotateSingleEntry docId d = d := by
  unfold Step4Review.rotateSingleEntry
  rw [if_neg h]

/-- C10. For a rotate call targeting a document id that occurs exactly
once in the relevant list and whose rotation lies in {0, 90, 180, 270},
the result replaces only that document's rotation by
`(rotation + 90) % 360` — which again lies in {0, 90, 180, 270} — and
leaves every other field of the document, every other document, every
other pair and the untouched list unchanged; stated for all three call
shapes (front of a pair, back of a pair, single document). -/
theorem rotateDocument_spec :
    (∀ (st : Step4Review.ReviewState) (docId : String)
        (l₁ : List PairedIDCard) (pr : PairedIDCard) (l₂ : List PairedIDCard),
      st.localPairedIDs = l₁ ++ pr :: l₂ →
      pr.frontDoc.id = docId →
      (∀ q ∈ l₁, q.frontDoc.id ≠ docId) →
      (∀ q ∈ l₂, q.frontDoc.id ≠ docId) →
      pr.frontDoc.rotation ∈ ([0, 90, 180, 270] : List Nat) →
        Step4Review.rotateDocument docId true (some true) st =
          { st with localPairedIDs := l₁ ++
              { pr with frontDoc := { pr.frontDoc with
                  rotation := (pr.frontDoc.rotation + 90) % 360 } } :: l₂ } ∧
        (pr.frontDoc.rotation + 90) % 360 ∈ ([0, 90, 180, 270] : List Nat)) ∧
    (∀ (st : Step4Review.ReviewState) (docId : String)
        (l₁ : List PairedIDCard) (pr : PairedIDCard) (l₂ : List PairedIDCard),
      st.localPairedIDs = l₁ ++ pr :: l₂ →
      pr.backDoc.id = docId →
      (∀ q ∈ l₁, q.backDoc.id ≠ docId) →
      (∀ q ∈ l₂, q.backDoc.id ≠ docId) →
      pr.backDoc.rotation ∈ ([0, 90, 180, 270] : List Nat) →
        Step4Review.rotateDocument docId true (some false) st =
          { st with localPairedIDs := l₁ ++
              { pr with backDoc := { pr.backDoc with
                  rotation := (pr.backDoc.rotation + 90) % 360 } } :: l₂ } ∧
        (pr.backDoc.rotation + 90) % 360 ∈ ([0, 90, 180, 270] : List Nat)) ∧
    (∀ (st : Step4Review.ReviewState) (docId : String)
        (l₁ : List CleanedDocument) (d : CleanedDocument)
        (l₂ : List CleanedDocument),
      st.localSingleDocs = l₁ ++ d :: l₂ →
      d.id = docId →
      (∀ q ∈ l₁, q.id ≠ docId) →
      (∀ q ∈ l₂, q.id ≠ docId) →
      d.rotation ∈ ([0, 90, 180, 270] : List Nat) →
        Step4Review.rotateDocument docId false none st =
          { st with localSingleDocs := l₁ ++
              { d with rotation := (d.rotation + 90) % 360 } :: l₂ } ∧
        (d.rotation + 90) % 360 ∈ ([0, 90, 180, 270] : List Nat)) := by
  refine ⟨?_, ?_, ?_⟩
  · intro st docId l₁ pr l₂ hsplit hid h₁ h₂ hrot
    constructor
    · unfold Step4Review.rotateDocument
      rw [if_pos ⟨rfl, by simp⟩, hsplit, List.map_append, List.map_cons]
      have hpr : Step4Review.rotatePairEntry docId (some true) pr =
          { pr with frontDoc := { pr.frontDoc with
              rotation := (pr.frontDoc.rotation + 90) % 360 } } := by
        unfold Step4Review.rotatePairEntry
        rw [if_pos ⟨rfl, hid⟩]
      rw [hpr,
        map_eq_self_of l₁ _ (fun q hq => rotatePairEntry_front_skip docId q (h₁ q hq)),
        map_eq_self_of l₂ _ (fun q hq => rotatePairEntry_front_skip docId q (h₂ q hq))]
    · simp only [List.mem_cons, List.not_mem_nil, or_false] at hrot ⊢
      omega
  · intro st docId l₁ pr l₂ hsplit hid h₁ h₂ hrot
    constructor
    · unfold Step4Review.rotateDocument
      rw [if_pos ⟨rfl, by simp⟩, hsplit, List.map_append, List.map_cons]
      have hpr : Step4Review.rotatePairEntry docId (some false) pr =
          { pr with backDoc := { pr.backDoc with
              rotation := (pr.backDoc.rotation + 90) % 360 } } := by
        unfold Step4Review.rotatePairEntry
        rw [if_neg (by simp), if_pos ⟨rfl, hid⟩]
      rw [hpr,
        map_eq_self_of l₁ _ (fun q hq => rotatePairEntry_back_skip docId q (h₁ q hq)),
        map_eq_self_of l₂ _ (fun q hq => rotatePairEntry_back_skip docId q (h₂ q hq))]
    · simp only [List.mem_cons, List.not_mem_nil, or_false] at hrot ⊢
      omega
  · intro st docId l₁ d l₂ hsplit hid h₁ h₂ hrot
    constructor
    · unfold Step4Review.rotateDocument
      rw [if_neg (by simp), hsplit, List.map_append, List.map_cons]
      have hd : Step4Review.rotateSingleEntry docId d =
          { d with rotation := (d.rotation + 90) % 360 } := by
        unfold Step4Review.rotateSingleEntry
        rw [if_pos hid]
      rw [hd,
        map_eq_self_of l₁ _ (fun q hq => rotateSingleEntry_skip docId q (h₁ q hq)),
        map_eq_self_of l₂ _ (fun q hq => rotateSingleEntry_skip docId q (h₂ q hq))]
    · simp only [List.mem_cons, List.not_mem_nil, or_false] at hrot ⊢
      omega

/-- Evaluation witness for C10: rotating the back of the concrete pair
and evaluating the result. -/
theorem rotateDocument_spec_witness :
    Step4Review.rotateDocument "d2" true (some false) rv0 =
      { rv0 with localPairedIDs :=
          [{ pair0 with backDoc := { pair0.backDoc with rotation := 90 } }] } ∧
    Step4Review.rotateDocument "d3" false none rv0 =
      { rv0 with localSingleDocs :=
          [{ dPanCard with rotation := 180 }] } := by
  constructor
  · have h := (rotateDocument_spec.2.1 rv0 "d2" [] pair0 []
      rfl rfl (by decide) (by decide) (by decide)).1
    exact h
  · have h := (rotateDocument_spec.2.2 rv0 "d3" [] dPanCard []
      rfl rfl (by decide) (by decide) (by decide)).1
    exact h

end Photocopy
